import Mathlib

/-!
Shallow embedding of `src/index.ts` (class `Recometry`, cardiogramx/recometry-ts).

The class owns a single real-time channel handle (a SignalR `HubConnection`)
and exposes `collect` (fire-and-forget over the channel) plus two
request/response passthroughs, `recommend` and `predict`.  The underlying
transport is an external collaborator; it is modelled here as a behaviour
record giving, for each primitive (`start`, `stop`, `invoke`), the result of
calling it in a given connection state: an optional rejection value together
with the connection state it leaves behind.  Quantifying theorems over all
behaviours covers every failing or malformed transport.

Manager operations are embedded as pure functions returning the error they
propagate to their caller (`none` when every failure is caught internally),
the resulting connection state, and a trace of the observable events they
perform, in order.
-/

/-- Rejection values thrown by the transport or by `fetch` (JS `any` values,
modelled by an arbitrary countable carrier). -/
abbrev TErr := Nat

/-- Connection states reported by the channel handle (`ConnectionState` in the
data model: `Disconnected | Connecting | Connected | Reconnecting`). -/
inductive HubConnectionState where
  | Disconnected
  | Connecting
  | Connected
  | Reconnecting
deriving DecidableEq, Repr

/-- Event types of a `RecometryEvent`: `click` or `rating`. -/
inductive EventType where
  | click
  | rating
deriving DecidableEq, Repr

/-- `RecometryEvent`: pure data, sent as-is.  The freeform `data` record maps
string keys to payload values; the payload values are modelled as strings
because the library never inspects them. -/
structure RecometryEvent where
  id : String
  type : EventType
  data : List (String × String)
  productId : Int
  userId : String
deriving DecidableEq, Repr

/-- Behaviour of the real-time transport (external collaborator): given the
current connection state, each primitive either resolves or rejects (the
`Option TErr` component) and leaves the channel in a resulting state.
`invokeFn` additionally sees the remote method name and its argument. -/
structure HubBehavior where
  startFn : HubConnectionState → Option TErr × HubConnectionState
  stopFn : HubConnectionState → Option TErr × HubConnectionState
  invokeFn : String → RecometryEvent → HubConnectionState → Option TErr × HubConnectionState

/-- Observable events of a manager operation: entry into the manager-level
`connect`/`disconnect` methods, the low-level transport calls they perform,
and the remote invocation with its method name and sole argument. -/
inductive TraceEvent where
  | connectOp
  | disconnectOp
  | startCall
  | stopCall
  | invokeCall (method : String) (arg : RecometryEvent)
deriving DecidableEq, Repr

/-- Result of a manager lifecycle operation: the error it rethrows to its
caller (`none` when every failure is caught internally), the resulting
connection state, and the trace of observable events in order. -/
structure OpResult where
  err : Option TErr
  state : HubConnectionState
  trace : List TraceEvent
deriving DecidableEq, Repr

/-- Body of `Recometry.connect` before its catch clause: return early when the
state is already `Connected`, otherwise `await this.websocket.start()`. -/
def connectBody (b : HubBehavior) (s : HubConnectionState) : OpResult :=
  if s = HubConnectionState.Connected then
    { err := none, state := s, trace := [TraceEvent.connectOp] }
  else
    let r := b.startFn s
    { err := r.1, state := r.2, trace := [TraceEvent.connectOp, TraceEvent.startCall] }

/-- `Recometry.connect`: the body wrapped in `try`/`catch`; a start failure is
logged (`console.error`) and discarded, never rethrown. -/
def connect (b : HubBehavior) (s : HubConnectionState) : OpResult :=
  let r := connectBody b s
  { r with err := none }

/-- Body of `Recometry.disconnect` before its catch clause: when the state is
not already `Disconnected`, `await this.websocket.stop()`. -/
def disconnectBody (b : HubBehavior) (s : HubConnectionState) : OpResult :=
  if s ≠ HubConnectionState.Disconnected then
    let r := b.stopFn s
    { err := r.1, state := r.2, trace := [TraceEvent.disconnectOp, TraceEvent.stopCall] }
  else
    { err := none, state := s, trace := [TraceEvent.disconnectOp] }

/-- `Recometry.disconnect`: the body wrapped in `try`/`catch`; a stop failure
is logged and discarded, never rethrown. -/
def disconnect (b : HubBehavior) (s : HubConnectionState) : OpResult :=
  let r := disconnectBody b s
  { r with err := none }

/-- Body of `Recometry.reconnect` before its catch clause: return early when
the state is already `Connected`, otherwise `await this.disconnect()` then
`await this.connect()`.  A rejection of the first awaited call would skip the
second (faithful to `await` sequencing), though `disconnect` never rejects. -/
def reconnectBody (b : HubBehavior) (s : HubConnectionState) : OpResult :=
  if s = HubConnectionState.Connected then
    { err := none, state := s, trace := [] }
  else
    let r1 := disconnect b s
    match r1.err with
    | some e => { err := some e, state := r1.state, trace := r1.trace }
    | none =>
        let r2 := connect b r1.state
        { err := r2.err, state := r2.state, trace := r1.trace ++ r2.trace }

/-- `Recometry.reconnect`: the body wrapped in `try`/`catch`; failures are
logged and discarded, never rethrown. -/
def reconnect (b : HubBehavior) (s : HubConnectionState) : OpResult :=
  let r := reconnectBody b s
  { r with err := none }

/-- Body of `Recometry.collect` before its catch clause:
`await this.reconnect()` then
`await this.websocket.invoke("collect", event)`.  A rejection of the first
awaited call would skip the invoke (faithful to `await` sequencing), though
`reconnect` never rejects. -/
def collectBody (b : HubBehavior) (s : HubConnectionState) (event : RecometryEvent) : OpResult :=
  let r1 := reconnect b s
  match r1.err with
  | some e => { err := some e, state := r1.state, trace := r1.trace }
  | none =>
      let r2 := b.invokeFn "collect" event r1.state
      { err := r2.1, state := r2.2,
        trace := r1.trace ++ [TraceEvent.invokeCall "collect" event] }

/-- `Recometry.collect`: the body wrapped in `try`/`catch`; any failure at
either step is logged and discarded, never rethrown to the caller. -/
def collect (b : HubBehavior) (s : HubConnectionState) (event : RecometryEvent) : OpResult :=
  let r := collectBody b s event
  { r with err := none }

/-- Projection of a trace onto the manager-level `disconnect`/`connect`
method entries, used to count lifecycle calls. -/
def lifecycleOps (t : List TraceEvent) : List TraceEvent :=
  t.filter (fun ev => ev == TraceEvent.disconnectOp || ev == TraceEvent.connectOp)

/-- Runtime configuration object as the constructor can actually receive it.
TypeScript field types are not enforced at runtime, so the credential and the
environment are modelled as possibly absent, and the environment as an
arbitrary string rather than the closed set `sandbox | live`.  Whether an
error callback is configured is recorded as a flag; the callback itself is
modelled separately for the error handler. -/
structure RecometryConfig where
  apiKey : Option String
  env : Option String
  hasOnError : Bool
deriving DecidableEq, Repr

/-- Transport kinds selectable on the channel builder; the source always picks
`HttpTransportType.WebSockets`. -/
inductive HttpTransportType where
  | WebSockets
deriving DecidableEq, Repr

/-- Configuration of the built channel handle, as assembled by the
`HubConnectionBuilder` chain in the constructor: channel URL, the value the
access-token factory yields, negotiation skip, chosen transport, and whether
low-level automatic reconnect is enabled. -/
structure HubConnectionConfig where
  url : String
  accessToken : Option String
  skipNegotiation : Bool
  transport : HttpTransportType
  automaticReconnect : Bool
deriving DecidableEq, Repr

/-- A constructed `Recometry` instance: the retained configuration, the
derived base address, and the configuration of the single owned channel
handle. -/
structure Recometry where
  configuration : RecometryConfig
  baseUrl : String
  websocket : HubConnectionConfig
deriving DecidableEq, Repr

/-- Side effects the constructor performs after its configuration check, in
source order: building the channel handle, registering the error-notification
handler, and initiating the (non-blocking) initial connect. -/
inductive CtorStep where
  | buildChannel
  | registerErrorHandler
  | connectAttempt
deriving DecidableEq, Repr

/-- The `Recometry` constructor.  `if (!config) throw new Error("config is
required")` comes first, so an absent configuration object fails before any
channel is built or any connection is attempted (the error branch carries no
constructor steps).  Otherwise the base address is derived from `config.env`
(`=== "live"` selects the production address, any other value the local
development address), the channel handle is built on `<base>/metrics` with the
credential as bearer token, and a connect is initiated.  No field of the
configuration is validated. -/
def recometryNew (config : Option RecometryConfig) :
    Except String (Recometry × List CtorStep) :=
  match config with
  | none => Except.error "config is required"
  | some cfg =>
      let baseUrl :=
        if cfg.env = some "live" then "https://api.recometry.com"
        else "https://localhost:5001"
      Except.ok
        ({ configuration := cfg
           baseUrl := baseUrl
           websocket :=
             { url := baseUrl ++ "/metrics"
               accessToken := cfg.apiKey
               skipNegotiation := true
               transport := HttpTransportType.WebSockets
               automaticReconnect := true } },
         [CtorStep.buildChannel, CtorStep.registerErrorHandler, CtorStep.connectAttempt])

/-- Events observable from the channel error-notification handler registered
in the constructor: the console log of the error, the call into the configured
callback with its argument, the steps the callback itself performs while
awaited, and the handler returning control to the transport. -/
inductive HandlerEvent where
  | consoleLog (e : TErr)
  | onErrorInvoke (e : TErr)
  | callbackStep (n : Nat)
  | handlerReturn
deriving DecidableEq, Repr

/-- The `error` notification handler registered in the constructor:
`console.log("error", err)`, then `if (config.onError) await config.onError(err)`.
The optional callback is modelled by the list of steps it performs on a given
error value; because the handler awaits it, all of its steps happen before the
handler returns control. -/
def errorHandler (onError : Option (TErr → List Nat)) (err : TErr) : List HandlerEvent :=
  match onError with
  | some cb =>
      HandlerEvent.consoleLog err :: HandlerEvent.onErrorInvoke err ::
        ((cb err).map HandlerEvent.callbackStep ++ [HandlerEvent.handlerReturn])
  | none => [HandlerEvent.consoleLog err, HandlerEvent.handlerReturn]

/-- Test for the handler event recording a call into the configured callback. -/
def isOnErrorInvoke : HandlerEvent → Bool
  | HandlerEvent.onErrorInvoke _ => true
  | _ => false

/-- JSON values, for parsed response bodies. -/
inductive Json where
  | null
  | bool (b : Bool)
  | num (n : Int)
  | str (s : String)
  | arr (xs : List Json)
  | obj (kvs : List (String × Json))

/-- `RecommendationRequest` value object. -/
structure RecommendationRequest where
  modelId : String
  userId : String
  limit : Int
deriving DecidableEq, Repr

/-- `PredictionRequest` value object; the freeform `data` record is modelled
as for events. -/
structure PredictionRequest where
  modelId : String
  data : List (String × String)
  limit : Int
deriving DecidableEq, Repr

/-- Request options passed to `fetch`, reduced to the fields the source sets:
method, the two headers, and the serialized body. -/
structure RequestInit where
  method : String
  contentType : String
  authorization : String
  body : String
deriving DecidableEq, Repr

/-- A `fetch` response, reduced to what the source uses: `response.json()`,
which either yields the parsed body or rejects on a non-JSON body. -/
structure FetchResponse where
  jsonResult : Except TErr Json

/-- Behaviour of the request/response transport: `fetch` either rejects
outright or yields a response. -/
abbrev FetchBehavior := String → RequestInit → Except TErr FetchResponse

/-- `JSON.stringify` of a recommendation request. -/
def stringifyRecommendationRequest (p : RecommendationRequest) : String :=
  "\x7b\"modelId\":\"" ++ p.modelId ++ "\",\"userId\":\"" ++ p.userId ++
    "\",\"limit\":" ++ toString p.limit ++ "\x7d"

/-- `JSON.stringify` of one freeform record entry. -/
def stringifyEntry (kv : String × String) : String :=
  "\"" ++ kv.1 ++ "\":\"" ++ kv.2 ++ "\""

/-- `JSON.stringify` of a prediction request. -/
def stringifyPredictionRequest (p : PredictionRequest) : String :=
  "\x7b\"modelId\":\"" ++ p.modelId ++ "\",\"data\":\x7b" ++
    String.intercalate "," (p.data.map stringifyEntry) ++
    "\x7d,\"limit\":" ++ toString p.limit ++ "\x7d"

/-- URL of the recommend passthrough: `<base>/api/v1/ml/recommend`. -/
def recommendUrl (self : Recometry) : String :=
  self.baseUrl ++ "/api/v1/ml/recommend"

/-- URL of the predict passthrough: `<base>/api/v1/ml/predict`. -/
def predictUrl (self : Recometry) : String :=
  self.baseUrl ++ "/api/v1/ml/predict"

/-- Bearer authorization header value built from the retained credential; the
JS template literal renders an absent credential as the text `undefined`. -/
def bearerHeader (self : Recometry) : String :=
  "Bearer " ++ self.configuration.apiKey.getD "undefined"

/-- Request constructed by `Recometry.recommend`: POST, JSON content type,
bearer authorization, stringified payload. -/
def recommendInit (self : Recometry) (payload : RecommendationRequest) : RequestInit :=
  { method := "POST"
    contentType := "application/json"
    authorization := bearerHeader self
    body := stringifyRecommendationRequest payload }

/-- Request constructed by `Recometry.predict`: POST, JSON content type,
bearer authorization, stringified payload. -/
def predictInit (self : Recometry) (payload : PredictionRequest) : RequestInit :=
  { method := "POST"
    contentType := "application/json"
    authorization := bearerHeader self
    body := stringifyPredictionRequest payload }

/-- `Recometry.predict` and `Recometry.recommend` share this shape: one
outbound call, then `response.json()`, returned as-is (the TS cast has no
runtime effect).  There is no `try`/`catch`: a rejected fetch or a rejected
body parse propagates to the caller. -/
def passthrough (fetchImpl : FetchBehavior) (url : String) (init : RequestInit) :
    Except TErr Json :=
  match fetchImpl url init with
  | Except.error e => Except.error e
  | Except.ok resp =>
      match resp.jsonResult with
      | Except.error e => Except.error e
      | Except.ok j => Except.ok j

/-- `Recometry.recommend`. -/
def recommend (fetchImpl : FetchBehavior) (self : Recometry)
    (payload : RecommendationRequest) : Except TErr Json :=
  passthrough fetchImpl (recommendUrl self) (recommendInit self payload)

/-- `Recometry.predict`. -/
def predict (fetchImpl : FetchBehavior) (self : Recometry)
    (payload : PredictionRequest) : Except TErr Json :=
  passthrough fetchImpl (predictUrl self) (predictInit self payload)

/-- The public and private operations of a `Recometry` instance, as a single
alphabet for the whole-instance step function. -/
inductive MgrOp where
  | opConnect
  | opDisconnect
  | opReconnect
  | opCollect (event : RecometryEvent)
  | opRecommend (payload : RecommendationRequest)
  | opPredict (payload : PredictionRequest)

/-- Result of running one operation against the whole instance: the
request/response result when the operation is a passthrough (`none`
otherwise), the error rethrown to the caller by a lifecycle operation, the
connection state of the owned channel after the call, and the transport
trace. -/
structure RunResult where
  httpResult : Option (Except TErr Json)
  err : Option TErr
  state : HubConnectionState
  trace : List TraceEvent

/-- One step of the whole instance.  Each branch is the per-operation
embedding above; the `recommend` and `predict` branches mirror the source,
whose bodies never mention `this.websocket` and so neither read nor change the
channel state and perform no transport call. -/
def runOp (fetchImpl : FetchBehavior) (b : HubBehavior) (self : Recometry)
    (s : HubConnectionState) : MgrOp → RunResult
  | MgrOp.opConnect =>
      let r := connect b s
      { httpResult := none, err := r.err, state := r.state, trace := r.trace }
  | MgrOp.opDisconnect =>
      let r := disconnect b s
      { httpResult := none, err := r.err, state := r.state, trace := r.trace }
  | MgrOp.opReconnect =>
      let r := reconnect b s
      { httpResult := none, err := r.err, state := r.state, trace := r.trace }
  | MgrOp.opCollect event =>
      let r := collect b s event
      { httpResult := none, err := r.err, state := r.state, trace := r.trace }
  | MgrOp.opRecommend payload =>
      { httpResult := some (recommend fetchImpl self payload), err := none,
        state := s, trace := [] }
  | MgrOp.opPredict payload =>
      { httpResult := some (predict fetchImpl self payload), err := none,
        state := s, trace := [] }

/-- A sample transport behaviour for concrete instantiations: every primitive
resolves and moves to the state a healthy transport would report. -/
def bSample : HubBehavior :=
  { startFn := fun _ => (none, HubConnectionState.Connected)
    stopFn := fun _ => (none, HubConnectionState.Disconnected)
    invokeFn := fun _ _ s => (none, s) }

/-- Sample configuration with environment `sandbox`. -/
def cfgSandbox : RecometryConfig :=
  { apiKey := some "k", env := some "sandbox", hasOnError := false }

/-- The instance the constructor builds from `cfgSandbox`. -/
def rSandbox : Recometry :=
  { configuration := cfgSandbox
    baseUrl := "https://localhost:5001"
    websocket :=
      { url := "https://localhost:5001/metrics"
        accessToken := some "k"
        skipNegotiation := true
        transport := HttpTransportType.WebSockets
        automaticReconnect := true } }

/-- Sample recommendation request. -/
def pSample : RecommendationRequest := { modelId := "m", userId := "u", limit := 5 }

/-- Sample prediction request. -/
def qSample : PredictionRequest := { modelId := "m", data := [], limit := 5 }

/-- C1: for every transport behaviour, every connection state and every event,
`collect` first runs `reconnect` (its trace is a prefix of the `collect`
trace), then performs exactly one remote invocation of the `collect` method
with the event as sole argument, and rethrows nothing to its caller. -/
theorem collect_reconnect_then_invoke_never_throws
    (b : HubBehavior) (s : HubConnectionState) (event : RecometryEvent) :
    (collect b s event).err = none ∧
    (collect b s event).trace =
      (reconnect b s).trace ++ [TraceEvent.invokeCall "collect" event] ∧
    (collect b s event).state = (b.invokeFn "collect" event (reconnect b s).state).2 := by
  refine ⟨rfl, ?_, ?_⟩ <;> simp [collect, collectBody, reconnect]

/-- C2: for every transport behaviour and state, `reconnect` rethrows nothing,
performs zero manager-level `disconnect`/`connect` calls when the state is
`Connected`, and otherwise performs exactly one `disconnect` followed by
exactly one `connect`. -/
theorem reconnect_lifecycle_counts (b : HubBehavior) (s : HubConnectionState) :
    (reconnect b s).err = none ∧
    lifecycleOps (reconnect b s).trace =
      (if s = HubConnectionState.Connected then []
       else [TraceEvent.disconnectOp, TraceEvent.connectOp]) := by
  refine ⟨rfl, ?_⟩
  cases s <;>
    simp [reconnect, reconnectBody, disconnect, disconnectBody, connect, connectBody,
      lifecycleOps] <;>
    split <;> simp [List.filter] <;> rfl

/-- C6: `connect` is idempotent and silent about failures: it rethrows
nothing; when the state is already `Connected` it returns at once with the
state unchanged and no channel start; otherwise it performs exactly one
channel start. -/
theorem connect_idempotent (b : HubBehavior) (s : HubConnectionState) :
    (connect b s).err = none ∧
    (s = HubConnectionState.Connected →
      connect b s =
        { err := none, state := s, trace := [TraceEvent.connectOp] }) ∧
    (s ≠ HubConnectionState.Connected →
      (connect b s).trace = [TraceEvent.connectOp, TraceEvent.startCall]) := by
  refine ⟨rfl, fun h => ?_, fun h => ?_⟩ <;>
    simp [connect, connectBody, h]

/-- Witness for `connect_idempotent` at a concrete behaviour and both kinds of
state. -/
theorem connect_idempotent_witness :
    connect bSample HubConnectionState.Connected =
      { err := none, state := HubConnectionState.Connected,
        trace := [TraceEvent.connectOp] } ∧
    (connect bSample HubConnectionState.Disconnected).trace =
      [TraceEvent.connectOp, TraceEvent.startCall] :=
  ⟨(connect_idempotent bSample HubConnectionState.Connected).2.1 rfl,
   (connect_idempotent bSample HubConnectionState.Disconnected).2.2 (by decide)⟩

/-- C7: for every configured callback and every error notification, the
handler invokes the callback exactly once, with the original error value, and
only returns control to the transport after every step of the awaited
callback: the trace ends with the single `handlerReturn`, which follows all
callback steps. -/
theorem error_callback_once_and_awaited (cb : TErr → List Nat) (err : TErr) :
    (errorHandler (some cb) err).filter isOnErrorInvoke =
      [HandlerEvent.onErrorInvoke err] ∧
    errorHandler (some cb) err =
      (HandlerEvent.consoleLog err :: HandlerEvent.onErrorInvoke err ::
        (cb err).map HandlerEvent.callbackStep) ++ [HandlerEvent.handlerReturn] ∧
    HandlerEvent.handlerReturn ∉
      (HandlerEvent.consoleLog err :: HandlerEvent.onErrorInvoke err ::
        (cb err).map HandlerEvent.callbackStep) := by
  refine ⟨?_, by simp [errorHandler], by simp⟩
  simp only [errorHandler, List.filter_cons, List.filter_append]
  have h1 : ∀ l : List Nat,
      (l.map HandlerEvent.callbackStep).filter isOnErrorInvoke = [] := by
    intro l
    induction l with
    | nil => rfl
    | cons x t ih => simp [List.filter, isOnErrorInvoke, ih]
  simp [h1, isOnErrorInvoke, List.filter]

/-- C8: constructing with an absent configuration object fails immediately
with the construction error; the error result carries no constructor step, so
no channel is built and no connection is attempted. -/
theorem construct_without_config_fails :
    recometryNew none = Except.error "config is required" := rfl

/-- C3 counterexample: a configuration object with both the credential and the
environment absent is accepted — construction succeeds, contradicting the
claim that their absence fails construction immediately. -/
theorem construct_missing_fields_succeeds :
    (recometryNew
      (some { apiKey := none, env := none, hasOnError := false })).isOk = true := rfl

/-- C3 amended: construction fails only when the configuration object itself
is absent; no field of a present configuration is validated, so an absent
credential or environment still constructs successfully (the environment then
selects the local development address). -/
theorem construction_fails_only_for_absent_config (cfg : RecometryConfig) :
    (recometryNew (some cfg)).isOk = true ∧
    (recometryNew none).isOk = false ∧
    (cfg.apiKey = none → cfg.env = none → (recometryNew (some cfg)).isOk = true) :=
  ⟨rfl, rfl, fun _ _ => rfl⟩

/-- Witness for `construction_fails_only_for_absent_config` at the fully
absent-fields configuration. -/
theorem construction_fails_only_for_absent_config_witness :
    (recometryNew
      (some { apiKey := none, env := none, hasOnError := false })).isOk = true ∧
    (recometryNew none).isOk = false :=
  ⟨(construction_fails_only_for_absent_config
      { apiKey := none, env := none, hasOnError := false }).2.2 rfl rfl,
   (construction_fails_only_for_absent_config
      { apiKey := none, env := none, hasOnError := false }).2.1⟩

/-- C9: any environment value other than the exact string `live` — including
an absent one — is accepted without validation, and the local development base
address is used. -/
theorem non_live_env_accepted (cfg : RecometryConfig) (h : cfg.env ≠ some "live") :
    ∃ r steps, recometryNew (some cfg) = Except.ok (r, steps) ∧
      r.baseUrl = "https://localhost:5001" := by
  refine ⟨_, _, rfl, ?_⟩
  simp [if_neg h]

/-- Witness for `non_live_env_accepted` at an invalid environment string. -/
theorem non_live_env_accepted_witness :
    ({ apiKey := some "k", env := some "staging", hasOnError := false } :
        RecometryConfig).env ≠ some "live" ∧
    ∃ r steps,
      recometryNew
          (some { apiKey := some "k", env := some "staging", hasOnError := false }) =
        Except.ok (r, steps) ∧
      r.baseUrl = "https://localhost:5001" :=
  ⟨by decide, non_live_env_accepted _ (by decide)⟩

/-- C5: for every successfully constructed instance, the channel URL is
`<base>/metrics` and the passthrough URLs are `<base>/api/v1/ml/recommend` and
`<base>/api/v1/ml/predict`, where the base address is the local development
address when the environment is `sandbox` and the fixed production address
when it is `live`. -/
theorem base_address_mapping (cfg : RecometryConfig) (r : Recometry)
    (steps : List CtorStep)
    (h : recometryNew (some cfg) = Except.ok (r, steps)) :
    r.websocket.url = r.baseUrl ++ "/metrics" ∧
    recommendUrl r = r.baseUrl ++ "/api/v1/ml/recommend" ∧
    predictUrl r = r.baseUrl ++ "/api/v1/ml/predict" ∧
    (cfg.env = some "sandbox" → r.baseUrl = "https://localhost:5001") ∧
    (cfg.env = some "live" → r.baseUrl = "https://api.recometry.com") := by
  simp only [recometryNew, Except.ok.injEq, Prod.mk.injEq] at h
  obtain ⟨hr, -⟩ := h
  subst hr
  refine ⟨rfl, rfl, rfl, fun he => ?_, fun he => ?_⟩ <;> simp [he]

/-- Witness for `base_address_mapping` at the sandbox configuration. -/
theorem base_address_mapping_witness :
    rSandbox.websocket.url = "https://localhost:5001/metrics" ∧
    recommendUrl rSandbox = "https://localhost:5001/api/v1/ml/recommend" ∧
    predictUrl rSandbox = "https://localhost:5001/api/v1/ml/predict" := by
  have h := base_address_mapping cfgSandbox rSandbox
    [CtorStep.buildChannel, CtorStep.registerErrorHandler, CtorStep.connectAttempt]
    (by rfl)
  have hb : rSandbox.baseUrl = "https://localhost:5001" := h.2.2.2.1 rfl
  exact ⟨by rw [h.1, hb]; rfl, by rw [h.2.1, hb]; rfl, by rw [h.2.2.1, hb]; rfl⟩

/-- C4: `recommend` and `predict` propagate every failure to the caller: a
rejected outbound call rejects the operation with the same error, and so does
a rejected body parse (non-JSON response); nothing is caught inside either
operation. -/
theorem recommend_predict_propagate (fetchImpl : FetchBehavior) (self : Recometry)
    (p : RecommendationRequest) (q : PredictionRequest) (e : TErr) :
    (fetchImpl (recommendUrl self) (recommendInit self p) = Except.error e →
      recommend fetchImpl self p = Except.error e) ∧
    (∀ resp, fetchImpl (recommendUrl self) (recommendInit self p) = Except.ok resp →
      resp.jsonResult = Except.error e →
      recommend fetchImpl self p = Except.error e) ∧
    (fetchImpl (predictUrl self) (predictInit self q) = Except.error e →
      predict fetchImpl self q = Except.error e) ∧
    (∀ resp, fetchImpl (predictUrl self) (predictInit self q) = Except.ok resp →
      resp.jsonResult = Except.error e →
      predict fetchImpl self q = Except.error e) := by
  refine ⟨fun h => ?_, fun resp h hj => ?_, fun h => ?_, fun resp h hj => ?_⟩
  · simp [recommend, passthrough, h]
  · simp [recommend, passthrough, h, hj]
  · simp [predict, passthrough, h]
  · simp [predict, passthrough, h, hj]

/-- Witness for `recommend_predict_propagate`: a rejecting fetch and a
non-JSON body, for each passthrough. -/
theorem recommend_predict_propagate_witness :
    recommend (fun _ _ => Except.error 7) rSandbox pSample = Except.error 7 ∧
    recommend (fun _ _ => Except.ok ⟨Except.error 9⟩) rSandbox pSample = Except.error 9 ∧
    predict (fun _ _ => Except.error 7) rSandbox qSample = Except.error 7 ∧
    predict (fun _ _ => Except.ok ⟨Except.error 9⟩) rSandbox qSample = Except.error 9 :=
  ⟨(recommend_predict_propagate (fun _ _ => Except.error 7) rSandbox pSample qSample 7).1 rfl,
   (recommend_predict_propagate (fun _ _ => Except.ok ⟨Except.error 9⟩) rSandbox pSample
      qSample 9).2.1 ⟨Except.error 9⟩ rfl rfl,
   (recommend_predict_propagate (fun _ _ => Except.error 7) rSandbox pSample
      qSample 7).2.2.1 rfl,
   (recommend_predict_propagate (fun _ _ => Except.ok ⟨Except.error 9⟩) rSandbox pSample
      qSample 9).2.2.2 ⟨Except.error 9⟩ rfl rfl⟩

/-- C10: the passthrough operations neither read nor modify the channel: for
every fetch behaviour, transport behaviour, state and payload, running
`recommend` or `predict` through the whole-instance step leaves the connection
state unchanged, performs no transport call, and yields a result independent
of the transport behaviour and of the connection state. -/
theorem passthrough_channel_frame (fetchImpl : FetchBehavior) (b b2 : HubBehavior)
    (self : Recometry) (s s2 : HubConnectionState)
    (p : RecommendationRequest) (q : PredictionRequest) :
    (runOp fetchImpl b self s (MgrOp.opRecommend p)).state = s ∧
    (runOp fetchImpl b self s (MgrOp.opRecommend p)).trace = [] ∧
    (runOp fetchImpl b self s (MgrOp.opRecommend p)).httpResult =
      (runOp fetchImpl b2 self s2 (MgrOp.opRecommend p)).httpResult ∧
    (runOp fetchImpl b self s (MgrOp.opPredict q)).state = s ∧
    (runOp fetchImpl b self s (MgrOp.opPredict q)).trace = [] ∧
    (runOp fetchImpl b self s (MgrOp.opPredict q)).httpResult =
      (runOp fetchImpl b2 self s2 (MgrOp.opPredict q)).httpResult :=
  ⟨rfl, rfl, rfl, rfl, rfl, rfl⟩
